import Mathlib

/-!
Verification of the word-decoding core of the ti-tmp12x-rs driver
(TI TMP121/TMP123 and OSENSA FTX 101 temperature sensors).

The driver reads one 2-byte big-endian word over SPI and decodes it into a
Celsius temperature; the OSENSA (extended) build additionally validates the
word and extracts an LED-current diagnostic.  All decode arithmetic in the
source is exact: the `i16` temperature code lies in [-4096, 4095] and is
multiplied by the f64 literal 0.0625 = 1/16, so every intermediate and final
value is exactly representable in binary floating point.  We therefore model
f64 by ℚ, u8/u16 by ℕ with explicit reduction modulo 256 / 65536, and the
`as i16` cast by an explicit two-complement reinterpretation.
-/

namespace TiTmp12x

/-- `u16::from_be_bytes([b0, b1])`: big-endian 16-bit word from two bytes.
The `% 256` encodes the `u8` type of each byte. -/
def u16_from_be_bytes (b0 b1 : Nat) : Nat :=
  (b0 % 256) * 256 + b1 % 256

/-- The Rust cast `x as i16` applied to a `u16` value: reinterpret the 16-bit
pattern as a signed two-complement integer. -/
def i16_of_u16 (x : Nat) : Int :=
  if x % 65536 < 32768 then (x % 65536 : Int) else (x % 65536 : Int) - 65536

/-- The `temperature` local computed inside `convert_words` (src/comms.rs):
mask off bit 15 with `0x7FFF`, shift right by 3, OR in `0xF000` when the word
is negative (the source tests `(all_bits & 0x8000) > 1`), and cast the result
`as i16`. -/
def decode_u16 (all_bits : Nat) : Int :=
  let is_negative : Bool := decide (all_bits &&& 0x8000 > 1)
  let sign_mask : Nat :=
    match is_negative with
    | true => 0xF000
    | false => 0x0000
  i16_of_u16 (((all_bits &&& 0x7FFF) >>> 3) ||| sign_mask)

/-- `convert_words` (src/comms.rs): decode a 2-byte big-endian word to °C,
returning `temperature as f64 * 0.0625`. -/
def convert_words (b0 b1 : Nat) : ℚ :=
  (decode_u16 (u16_from_be_bytes b0 b1) : ℚ) * (0.0625 : ℚ)

/-- `LedCurrentLevel` (src/comms.rs): LED current level indication for the
OSENSA FTX 101 sensor. -/
inductive LedCurrentLevel where
  | Under500
  | Range500To1000
  | Range1000To2000
  | Over2000
  | Unknown
deriving DecidableEq, Repr

/-- `Error<SPI>` (src/error.rs).  `ε` stands for `SPI::Error`, the transport
error type, which the `Spi` variant wraps opaquely. -/
inductive Error (ε : Type) where
  | Spi : ε → Error ε
  | InvalidMeasurement : Error ε
  | NoProbe : Error ε
  | DeviceError : Error ε

/-- `OsensaReading` (src/comms.rs): temperature plus LED-current diagnostic. -/
structure OsensaReading where
  temperature : ℚ
  led_current : LedCurrentLevel

/-- `convert_words_osensa` (src/comms.rs): extended decode for the FTX 101.
Checks the two sentinel words, then the CFM bit (D2), then extracts the LED
current level from D1..D0 and the temperature via `convert_words`. -/
def convert_words_osensa (ε : Type) (b0 b1 : Nat) :
    Except (Error ε) (ℚ × LedCurrentLevel) :=
  let all_bits := u16_from_be_bytes b0 b1
  if all_bits = 0x0000 then
    Except.error Error.NoProbe
  else if all_bits = 0x7FF8 then
    Except.error Error.DeviceError
  else
    let is_valid : Bool := decide (all_bits &&& 0x0004 ≠ 0)
    if !is_valid then
      Except.error Error.InvalidMeasurement
    else
      let led_bits := all_bits &&& 0x0003
      let led_current :=
        match led_bits with
        | 0 => LedCurrentLevel.Under500
        | 1 => LedCurrentLevel.Range500To1000
        | 2 => LedCurrentLevel.Range1000To2000
        | 3 => LedCurrentLevel.Over2000
        | _ => LedCurrentLevel.Unknown
      Except.ok (convert_words b0 b1, led_current)

/-- `get_reading` (src/comms.rs) with the `osensa` feature disabled.  The SPI
transaction is the external collaborator; we model its outcome as either a
transport error `e : ε` or the 2-byte buffer it filled. -/
def get_reading_plain (ε : Type) (transaction : Except ε (Nat × Nat)) :
    Except (Error ε) ℚ :=
  match transaction with
  | Except.error e => Except.error (Error.Spi e)
  | Except.ok (b0, b1) => Except.ok (convert_words b0 b1)

/-- `get_reading` (src/comms.rs) with the `osensa` feature enabled: the `?` on
the transaction maps a transport error to `Error::Spi` and returns before any
decoding; otherwise `convert_words_osensa` decodes the buffer and the LED
level is discarded. -/
def get_reading_osensa (ε : Type) (transaction : Except ε (Nat × Nat)) :
    Except (Error ε) ℚ :=
  match transaction with
  | Except.error e => Except.error (Error.Spi e)
  | Except.ok (b0, b1) =>
    match convert_words_osensa ε b0 b1 with
    | Except.error err => Except.error err
    | Except.ok (temperature, _led_current) => Except.ok temperature

/-- `get_osensa_reading` (src/comms.rs): same transaction, returns the full
`OsensaReading` pair on success. -/
def get_osensa_reading (ε : Type) (transaction : Except ε (Nat × Nat)) :
    Except (Error ε) OsensaReading :=
  match transaction with
  | Except.error e => Except.error (Error.Spi e)
  | Except.ok (b0, b1) =>
    match convert_words_osensa ε b0 b1 with
    | Except.error err => Except.error err
    | Except.ok (temperature, led_current) =>
      Except.ok { temperature := temperature, led_current := led_current }

/-! ### Reference decoders written from the words of spec §4.1

These are comparison points for the refinement claim: they follow the
prose of the spec, not the source, and are proved equivalent to
`convert_words` below. -/

/-- Modelled from the spec, §4.1 reference algorithm: mask the word with
0x7FFF, right-shift by 3, and if bit 15 of the word is set OR in the top 4
bits as 1s; the resulting 16-bit pattern is interpreted as a signed
two-complement integer. -/
def spec_code_u16 (w : Nat) : Int :=
  let word := w % 65536
  let shifted := (word &&& 0x7FFF) >>> 3
  let pattern := if word.testBit 15 then shifted ||| 0xF000 else shifted
  i16_of_u16 pattern

/-- Modelled from the spec, §4.1: the reference decode, `spec_code_u16`
multiplied by 0.0625 °C per LSB. -/
def spec_decode_u16 (w : Nat) : ℚ :=
  (spec_code_u16 w : ℚ) * (0.0625 : ℚ)

/-- Modelled from the spec, §4.1 equivalent formulation: the signed 13-bit
two-complement value held in bits 15..3 of the word. -/
def spec_code13 (w : Nat) : Int :=
  let bits := (w % 65536) >>> 3
  if bits < 4096 then (bits : Int) else (bits : Int) - 8192

/-- Modelled from the spec, §4.1 equivalent formulation: the signed 13-bit
value of bits 15..3 times 0.0625 °C per LSB. -/
def spec_decode13 (w : Nat) : ℚ :=
  (spec_code13 w : ℚ) * (0.0625 : ℚ)

/-! ### Helper lemmas -/

theorem u16_from_be_bytes_lt (b0 b1 : Nat) : u16_from_be_bytes b0 b1 < 65536 := by
  unfold u16_from_be_bytes
  omega

theorem and_32767_eq_mod (w : Nat) : w &&& 32767 = w % 32768 := by
  have h := Nat.and_pow_two_sub_one_eq_mod w 15
  norm_num at h
  exact h

theorem and_32768_of_lt {w : Nat} (h : w < 32768) : w &&& 32768 = 0 := by
  have h1 := Nat.and_two_pow w 15
  have h2 : w.testBit 15 = false := by
    rw [Nat.testBit_to_div_mod]
    simp only [decide_eq_false_iff_not]
    omega
  rw [h2] at h1
  norm_num at h1
  exact h1

theorem and_32768_of_ge {w : Nat} (h : 32768 ≤ w) (h2 : w < 65536) :
    w &&& 32768 = 32768 := by
  have h1 := Nat.and_two_pow w 15
  have h3 : w.testBit 15 = true := by
    rw [Nat.testBit_to_div_mod]
    simp only [decide_eq_true_eq]
    omega
  rw [h3] at h1
  norm_num at h1
  exact h1

set_option maxRecDepth 2000 in
theorem or_61440_eq_add {y : Nat} (hy : y < 4096) : y ||| 61440 = y + 61440 := by
  have h16 : ∀ a, a < 16 → ∀ b, b < 256 →
      (a * 256 + b) ||| 61440 = a * 256 + b + 61440 := by decide
  have h := h16 (y / 256) (by omega) (y % 256) (by omega)
  have hy2 : y / 256 * 256 + y % 256 = y := by omega
  rwa [hy2] at h

/-- Closed form for the temperature code of `convert_words`: the signed
13-bit two-complement value of bits 15..3. -/
theorem decode_u16_char (w : Nat) (hw : w < 65536) :
    decode_u16 w = (w / 8 : Int) - if w < 32768 then 0 else 8192 := by
  unfold decode_u16 i16_of_u16
  by_cases h : w < 32768
  · rw [and_32768_of_lt h]
    norm_num [and_32767_eq_mod, Nat.shiftRight_eq_div_pow]
    rw [Nat.mod_eq_of_lt (a := w % 32768 / 8) (by omega),
      if_pos (show w % 32768 / 8 < 32768 by omega), if_pos h]
    omega
  · rw [and_32768_of_ge (by omega) hw]
    norm_num [and_32767_eq_mod, Nat.shiftRight_eq_div_pow]
    rw [or_61440_eq_add (show w % 32768 / 8 < 4096 by omega),
      Nat.mod_eq_of_lt (a := w % 32768 / 8 + 61440) (by omega),
      if_neg (show ¬(w % 32768 / 8 + 61440 < 32768) by omega), if_neg h]
    omega

theorem decode_u16_lower (w : Nat) (hw : w < 65536) : -4096 ≤ decode_u16 w := by
  rw [decode_u16_char w hw]
  by_cases h : w < 32768
  · rw [if_pos h]; omega
  · rw [if_neg h]; omega

theorem decode_u16_upper (w : Nat) (hw : w < 65536) : decode_u16 w ≤ 4095 := by
  rw [decode_u16_char w hw]
  by_cases h : w < 32768
  · rw [if_pos h]; omega
  · rw [if_neg h]; omega

/-- Same closed form for the spec §4.1 reference code. -/
theorem spec_code_u16_char (w : Nat) (hw : w < 65536) :
    spec_code_u16 w = (w / 8 : Int) - if w < 32768 then 0 else 8192 := by
  simp only [spec_code_u16, i16_of_u16]
  rw [Nat.mod_eq_of_lt hw]
  by_cases h : w < 32768
  · have ht : w.testBit 15 = false := by
      rw [Nat.testBit_to_div_mod]
      simp only [decide_eq_false_iff_not]
      omega
    rw [ht]
    norm_num [and_32767_eq_mod, Nat.shiftRight_eq_div_pow]
    rw [Nat.mod_eq_of_lt (a := w % 32768 / 8) (by omega),
      if_pos (show w % 32768 / 8 < 32768 by omega), if_pos h]
    omega
  · have ht : w.testBit 15 = true := by
      rw [Nat.testBit_to_div_mod]
      simp only [decide_eq_true_eq]
      omega
    rw [ht]
    norm_num [and_32767_eq_mod, Nat.shiftRight_eq_div_pow]
    rw [or_61440_eq_add (show w % 32768 / 8 < 4096 by omega),
      Nat.mod_eq_of_lt (a := w % 32768 / 8 + 61440) (by omega),
      if_neg (show ¬(w % 32768 / 8 + 61440 < 32768) by omega), if_neg h]
    omega

/-- Same closed form for the spec §4.1 13-bit formulation. -/
theorem spec_code13_char (w : Nat) (hw : w < 65536) :
    spec_code13 w = (w / 8 : Int) - if w < 32768 then 0 else 8192 := by
  simp only [spec_code13]
  rw [Nat.mod_eq_of_lt hw, Nat.shiftRight_eq_div_pow]
  have hpow : (2 : Nat) ^ 3 = 8 := by norm_num
  rw [hpow]
  by_cases h : w < 32768
  · rw [if_pos (show w / 8 < 4096 by omega), if_pos h]
    omega
  · rw [if_neg (show ¬(w / 8 < 4096) by omega), if_neg h]
    omega

set_option maxRecDepth 2000 in
theorem and_248_eq (b : Nat) (hb : b < 256) : b &&& 248 = b / 8 * 8 := by
  revert hb
  revert b
  decide

theorem and_255_eq_mod (b : Nat) : b &&& 255 = b % 256 := by
  have h := Nat.and_pow_two_sub_one_eq_mod b 8
  norm_num at h
  exact h

theorem and_248_mod (b : Nat) : b &&& 248 = (b % 256) &&& 248 := by
  have h : (248 : Nat) = 255 &&& 248 := by decide
  conv_lhs => rw [h]
  rw [← Nat.and_assoc, and_255_eq_mod]

/-- Evaluation helper: the plain decode at a word whose temperature code is
known. -/
theorem convert_words_value (b0 b1 : Nat) (n : Int) (q : ℚ)
    (h : decode_u16 (u16_from_be_bytes b0 b1) = n)
    (h2 : (n : ℚ) * (0.0625 : ℚ) = q) :
    convert_words b0 b1 = q := by
  unfold convert_words
  rw [h, h2]

/-- Branch lemma: word 0x0000 maps to the NoProbe fault. -/
theorem osensa_noProbe (ε : Type) (b0 b1 : Nat)
    (h0 : u16_from_be_bytes b0 b1 = 0) :
    convert_words_osensa ε b0 b1 = Except.error Error.NoProbe := by
  simp only [convert_words_osensa]
  rw [if_pos h0]

/-- Branch lemma: word 0x7FF8 maps to the DeviceError fault. -/
theorem osensa_deviceError (ε : Type) (b0 b1 : Nat)
    (h0 : u16_from_be_bytes b0 b1 ≠ 0)
    (h7 : u16_from_be_bytes b0 b1 = 0x7FF8) :
    convert_words_osensa ε b0 b1 = Except.error Error.DeviceError := by
  simp only [convert_words_osensa]
  rw [if_neg h0, if_pos h7]

/-- Branch lemma: a non-sentinel word with a clear confirmation bit maps to
the InvalidMeasurement fault. -/
theorem osensa_invalid (ε : Type) (b0 b1 : Nat)
    (h0 : u16_from_be_bytes b0 b1 ≠ 0)
    (h7 : u16_from_be_bytes b0 b1 ≠ 0x7FF8)
    (hv : u16_from_be_bytes b0 b1 &&& 0x0004 = 0) :
    convert_words_osensa ε b0 b1 = Except.error Error.InvalidMeasurement := by
  simp only [convert_words_osensa]
  rw [if_neg h0, if_neg h7, if_pos (by simp [hv])]

/-- Branch lemma: a non-sentinel word with the confirmation bit set decodes
to the plain temperature and the LED level selected by bits 1..0. -/
theorem osensa_ok (ε : Type) (b0 b1 : Nat)
    (h0 : u16_from_be_bytes b0 b1 ≠ 0)
    (h7 : u16_from_be_bytes b0 b1 ≠ 0x7FF8)
    (hv : u16_from_be_bytes b0 b1 &&& 0x0004 ≠ 0) :
    convert_words_osensa ε b0 b1 =
      Except.ok (convert_words b0 b1,
        match u16_from_be_bytes b0 b1 &&& 0x0003 with
        | 0 => LedCurrentLevel.Under500
        | 1 => LedCurrentLevel.Range500To1000
        | 2 => LedCurrentLevel.Range1000To2000
        | 3 => LedCurrentLevel.Over2000
        | _ => LedCurrentLevel.Unknown) := by
  simp only [convert_words_osensa]
  rw [if_neg h0, if_neg h7, if_neg (by simp [hv])]

/-! ### Claim theorems -/

/-- C1: the extended decoder faults exactly on the word 0x0000 (NoProbe),
else the word 0x7FF8 (DeviceError), else a clear confirmation bit D2
(InvalidMeasurement), first match winning; any other word succeeds.  The
confirmation bits of both sentinel words are clear, yet they map to NoProbe
and DeviceError, not InvalidMeasurement. -/
theorem osensa_error_characterization (ε : Type) (b0 b1 : Nat) :
    ((∃ err, convert_words_osensa ε b0 b1 = Except.error err) ↔
      (u16_from_be_bytes b0 b1 = 0 ∨ u16_from_be_bytes b0 b1 = 0x7FF8 ∨
        u16_from_be_bytes b0 b1 &&& 0x0004 = 0)) ∧
    (convert_words_osensa ε b0 b1 = Except.error Error.NoProbe ↔
      u16_from_be_bytes b0 b1 = 0) ∧
    (convert_words_osensa ε b0 b1 = Except.error Error.DeviceError ↔
      u16_from_be_bytes b0 b1 = 0x7FF8) ∧
    (convert_words_osensa ε b0 b1 = Except.error Error.InvalidMeasurement ↔
      (u16_from_be_bytes b0 b1 ≠ 0 ∧ u16_from_be_bytes b0 b1 ≠ 0x7FF8 ∧
        u16_from_be_bytes b0 b1 &&& 0x0004 = 0)) ∧
    (0 : Nat) &&& 0x0004 = 0 ∧ (0x7FF8 : Nat) &&& 0x0004 = 0 := by
  by_cases h0 : u16_from_be_bytes b0 b1 = 0
  · rw [osensa_noProbe ε b0 b1 h0]
    refine ⟨⟨fun _ => Or.inl h0, fun _ => ⟨Error.NoProbe, rfl⟩⟩,
      ⟨fun _ => h0, fun _ => rfl⟩,
      ⟨fun h => absurd h (by simp), fun h => by omega⟩,
      ⟨fun h => absurd h (by simp), fun h => absurd h0 h.1⟩,
      by decide, by decide⟩
  · by_cases h7 : u16_from_be_bytes b0 b1 = 0x7FF8
    · rw [osensa_deviceError ε b0 b1 h0 h7]
      refine ⟨⟨fun _ => Or.inr (Or.inl h7), fun _ => ⟨Error.DeviceError, rfl⟩⟩,
        ⟨fun h => absurd h (by simp), fun h => absurd h h0⟩,
        ⟨fun _ => h7, fun _ => rfl⟩,
        ⟨fun h => absurd h (by simp), fun h => absurd h7 h.2.1⟩,
        by decide, by decide⟩
    · by_cases hv : u16_from_be_bytes b0 b1 &&& 0x0004 = 0
      · rw [osensa_invalid ε b0 b1 h0 h7 hv]
        refine ⟨⟨fun _ => Or.inr (Or.inr hv), fun _ => ⟨Error.InvalidMeasurement, rfl⟩⟩,
          ⟨fun h => absurd h (by simp), fun h => absurd h h0⟩,
          ⟨fun h => absurd h (by simp), fun h => absurd h h7⟩,
          ⟨fun _ => ⟨h0, h7, hv⟩, fun _ => rfl⟩,
          by decide, by decide⟩
      · rw [osensa_ok ε b0 b1 h0 h7 hv]
        refine ⟨⟨?_, ?_⟩,
          ⟨fun h => absurd h (by simp), fun h => absurd h h0⟩,
          ⟨fun h => absurd h (by simp), fun h => absurd h h7⟩,
          ⟨fun h => absurd h (by simp), fun h => absurd h.2.2 hv⟩,
          by decide, by decide⟩
        · rintro ⟨err, herr⟩
          exact absurd herr (by simp)
        · rintro (h | h | h)
          · exact absurd h h0
          · exact absurd h h7
          · exact absurd h hv

/-- C2 counterexample: the word 0x7FF8 does not decode to 255.0 °C under the
plain §4.1 algorithm; it decodes to 255.9375 °C. -/
theorem word_7FF8_not_255 : convert_words 0x7F 0xF8 ≠ (255 : ℚ) := by
  rw [convert_words_value 0x7F 0xF8 4095 255.9375 (by decide) (by norm_num)]
  norm_num

/-- C2 amended: the word 0x7FF8 decodes to 255.9375 °C (the maximum positive
code) under the plain algorithm, and the extended decoder maps it to the
DeviceError fault. -/
theorem word_7FF8_decode_and_device_error :
    convert_words 0x7F 0xF8 = (255.9375 : ℚ) ∧
    ∀ ε : Type, convert_words_osensa ε 0x7F 0xF8 = Except.error Error.DeviceError := by
  constructor
  · exact convert_words_value 0x7F 0xF8 4095 255.9375 (by decide) (by norm_num)
  · intro ε
    exact osensa_deviceError ε 0x7F 0xF8 (by decide) (by decide)

/-- C3: the plain decoder reproduces the datasheet table exactly. -/
theorem convert_words_datasheet_table :
    convert_words 0x4B 0x00 = (150 : ℚ) ∧
    convert_words 0x3E 0x80 = (125 : ℚ) ∧
    convert_words 0x0C 0x80 = (25 : ℚ) ∧
    convert_words 0x00 0x08 = (0.0625 : ℚ) ∧
    convert_words 0x00 0x00 = (0 : ℚ) ∧
    convert_words 0xFF 0xF8 = (-0.0625 : ℚ) ∧
    convert_words 0xF3 0x80 = (-25 : ℚ) ∧
    convert_words 0xE4 0x80 = (-55 : ℚ) :=
  ⟨convert_words_value 0x4B 0x00 2400 150 (by decide) (by norm_num),
    convert_words_value 0x3E 0x80 2000 125 (by decide) (by norm_num),
    convert_words_value 0x0C 0x80 400 25 (by decide) (by norm_num),
    convert_words_value 0x00 0x08 1 0.0625 (by decide) (by norm_num),
    convert_words_value 0x00 0x00 0 0 (by decide) (by norm_num),
    convert_words_value 0xFF 0xF8 (-1) (-0.0625) (by decide) (by norm_num),
    convert_words_value 0xF3 0x80 (-400) (-25) (by decide) (by norm_num),
    convert_words_value 0xE4 0x80 (-880) (-55) (by decide) (by norm_num)⟩

/-- C4: the extended decoder reproduces the expected outcomes exactly for the
eight reference words. -/
theorem osensa_decode_table (ε : Type) :
    convert_words_osensa ε 0x0C 0x84 =
      Except.ok ((25 : ℚ), LedCurrentLevel.Under500) ∧
    convert_words_osensa ε 0x0C 0x85 =
      Except.ok ((25 : ℚ), LedCurrentLevel.Range500To1000) ∧
    convert_words_osensa ε 0x0C 0x86 =
      Except.ok ((25 : ℚ), LedCurrentLevel.Range1000To2000) ∧
    convert_words_osensa ε 0x0C 0x87 =
      Except.ok ((25 : ℚ), LedCurrentLevel.Over2000) ∧
    convert_words_osensa ε 0x0C 0x80 = Except.error Error.InvalidMeasurement ∧
    convert_words_osensa ε 0x00 0x00 = Except.error Error.NoProbe ∧
    convert_words_osensa ε 0x7F 0xF8 = Except.error Error.DeviceError ∧
    convert_words_osensa ε 0xF3 0x86 =
      Except.ok ((-25 : ℚ), LedCurrentLevel.Range1000To2000) := by
  refine ⟨?_, ?_, ?_, ?_, ?_, ?_, ?_, ?_⟩
  · rw [osensa_ok ε 0x0C 0x84 (by decide) (by decide) (by decide),
      (by decide : u16_from_be_bytes 0x0C 0x84 &&& 0x0003 = 0),
      convert_words_value 0x0C 0x84 400 25 (by decide) (by norm_num)]
  · rw [osensa_ok ε 0x0C 0x85 (by decide) (by decide) (by decide),
      (by decide : u16_from_be_bytes 0x0C 0x85 &&& 0x0003 = 1),
      convert_words_value 0x0C 0x85 400 25 (by decide) (by norm_num)]
  · rw [osensa_ok ε 0x0C 0x86 (by decide) (by decide) (by decide),
      (by decide : u16_from_be_bytes 0x0C 0x86 &&& 0x0003 = 2),
      convert_words_value 0x0C 0x86 400 25 (by decide) (by norm_num)]
  · rw [osensa_ok ε 0x0C 0x87 (by decide) (by decide) (by decide),
      (by decide : u16_from_be_bytes 0x0C 0x87 &&& 0x0003 = 3),
      convert_words_value 0x0C 0x87 400 25 (by decide) (by norm_num)]
  · exact osensa_invalid ε 0x0C 0x80 (by decide) (by decide) (by decide)
  · exact osensa_noProbe ε 0x00 0x00 (by decide)
  · exact osensa_deviceError ε 0x7F 0xF8 (by decide) (by decide)
  · rw [osensa_ok ε 0xF3 0x86 (by decide) (by decide) (by decide),
      (by decide : u16_from_be_bytes 0xF3 0x86 &&& 0x0003 = 2),
      convert_words_value 0xF3 0x86 (-400) (-25) (by decide) (by norm_num)]

/-- C5: whenever the extended decoder succeeds, the temperature component of
the result is exactly the plain §4.1 decode of the same word. -/
theorem osensa_success_temp_eq_plain (ε : Type) (b0 b1 : Nat) (t : ℚ)
    (led : LedCurrentLevel)
    (h : convert_words_osensa ε b0 b1 = Except.ok (t, led)) :
    t = convert_words b0 b1 := by
  by_cases h0 : u16_from_be_bytes b0 b1 = 0
  · rw [osensa_noProbe ε b0 b1 h0] at h
    exact absurd h (by simp)
  · by_cases h7 : u16_from_be_bytes b0 b1 = 0x7FF8
    · rw [osensa_deviceError ε b0 b1 h0 h7] at h
      exact absurd h (by simp)
    · by_cases hv : u16_from_be_bytes b0 b1 &&& 0x0004 = 0
      · rw [osensa_invalid ε b0 b1 h0 h7 hv] at h
        exact absurd h (by simp)
      · rw [osensa_ok ε b0 b1 h0 h7 hv] at h
        simp only [Except.ok.injEq, Prod.mk.injEq] at h
        exact h.1.symm

theorem osensa_success_temp_eq_plain_witness :
    (25 : ℚ) = convert_words 0x0C 0x84 :=
  osensa_success_temp_eq_plain Unit 0x0C 0x84 25 LedCurrentLevel.Under500 (by
    rw [osensa_ok Unit 0x0C 0x84 (by decide) (by decide) (by decide),
      (by decide : u16_from_be_bytes 0x0C 0x84 &&& 0x0003 = 0),
      convert_words_value 0x0C 0x84 400 25 (by decide) (by norm_num)])

/-- C6: every plain decode is an integer multiple of 0.0625 °C lying between
-256.0 and +255.9375 inclusive. -/
theorem convert_words_range (b0 b1 : Nat) :
    ∃ n : ℤ, convert_words b0 b1 = (n : ℚ) * (0.0625 : ℚ) ∧
      (-256 : ℚ) ≤ convert_words b0 b1 ∧ convert_words b0 b1 ≤ (255.9375 : ℚ) := by
  have hw := u16_from_be_bytes_lt b0 b1
  refine ⟨decode_u16 (u16_from_be_bytes b0 b1), rfl, ?_, ?_⟩
  · have h := decode_u16_lower _ hw
    have h1 : (-4096 : ℚ) ≤ ((decode_u16 (u16_from_be_bytes b0 b1) : ℤ) : ℚ) := by
      exact_mod_cast h
    calc (-256 : ℚ) = (-4096 : ℚ) * (0.0625 : ℚ) := by norm_num
      _ ≤ ((decode_u16 (u16_from_be_bytes b0 b1) : ℤ) : ℚ) * (0.0625 : ℚ) :=
          mul_le_mul_of_nonneg_right h1 (by norm_num)
      _ = convert_words b0 b1 := rfl
  · have h := decode_u16_upper _ hw
    have h1 : ((decode_u16 (u16_from_be_bytes b0 b1) : ℤ) : ℚ) ≤ (4095 : ℚ) := by
      exact_mod_cast h
    calc convert_words b0 b1
        = ((decode_u16 (u16_from_be_bytes b0 b1) : ℤ) : ℚ) * (0.0625 : ℚ) := rfl
      _ ≤ (4095 : ℚ) * (0.0625 : ℚ) := mul_le_mul_of_nonneg_right h1 (by norm_num)
      _ = (255.9375 : ℚ) := by norm_num

/-- C7: the plain decoder coincides with the §4.1 reference algorithm, in
both of its formulations (sign-extended 16-bit pattern, and signed 13-bit
value of bits 15..3). -/
theorem convert_words_eq_spec (b0 b1 : Nat) :
    convert_words b0 b1 = spec_decode_u16 (u16_from_be_bytes b0 b1) ∧
    convert_words b0 b1 = spec_decode13 (u16_from_be_bytes b0 b1) := by
  have hw := u16_from_be_bytes_lt b0 b1
  unfold convert_words spec_decode_u16 spec_decode13
  rw [decode_u16_char _ hw, spec_code_u16_char _ hw, spec_code13_char _ hw]
  exact ⟨rfl, rfl⟩

/-- C8: a failed SPI transaction surfaces as `Error.Spi` wrapping the
transport error, in the plain build, the extended build, and
`get_osensa_reading`; the decoders are never consulted because each reader
returns before decoding. -/
theorem spi_error_propagates (ε : Type) (e : ε) :
    get_reading_plain ε (Except.error e) = Except.error (Error.Spi e) ∧
    get_reading_osensa ε (Except.error e) = Except.error (Error.Spi e) ∧
    get_osensa_reading ε (Except.error e) = Except.error (Error.Spi e) :=
  ⟨rfl, rfl, rfl⟩

/-- C9: on every successful extended decode the LED level is one of the four
named bands, selected by bits 1..0 of the word; the Unknown sentinel is never
produced. -/
theorem osensa_led_level (ε : Type) (b0 b1 : Nat) (t : ℚ)
    (led : LedCurrentLevel)
    (h : convert_words_osensa ε b0 b1 = Except.ok (t, led)) :
    led ≠ LedCurrentLevel.Unknown ∧
    (led = LedCurrentLevel.Under500 ↔ u16_from_be_bytes b0 b1 &&& 0x0003 = 0) ∧
    (led = LedCurrentLevel.Range500To1000 ↔ u16_from_be_bytes b0 b1 &&& 0x0003 = 1) ∧
    (led = LedCurrentLevel.Range1000To2000 ↔ u16_from_be_bytes b0 b1 &&& 0x0003 = 2) ∧
    (led = LedCurrentLevel.Over2000 ↔ u16_from_be_bytes b0 b1 &&& 0x0003 = 3) := by
  by_cases h0 : u16_from_be_bytes b0 b1 = 0
  · rw [osensa_noProbe ε b0 b1 h0] at h
    exact absurd h (by simp)
  · by_cases h7 : u16_from_be_bytes b0 b1 = 0x7FF8
    · rw [osensa_deviceError ε b0 b1 h0 h7] at h
      exact absurd h (by simp)
    · by_cases hv : u16_from_be_bytes b0 b1 &&& 0x0004 = 0
      · rw [osensa_invalid ε b0 b1 h0 h7 hv] at h
        exact absurd h (by simp)
      · rw [osensa_ok ε b0 b1 h0 h7 hv] at h
        simp only [Except.ok.injEq, Prod.mk.injEq] at h
        have hle : u16_from_be_bytes b0 b1 &&& 3 ≤ 3 := Nat.and_le_right
        have hcase : u16_from_be_bytes b0 b1 &&& 3 = 0 ∨
            u16_from_be_bytes b0 b1 &&& 3 = 1 ∨
            u16_from_be_bytes b0 b1 &&& 3 = 2 ∨
            u16_from_be_bytes b0 b1 &&& 3 = 3 := by omega
        have hled := h.2.symm
        rcases hcase with hc | hc | hc | hc <;>
          rw [hc] at hled <;> subst hled <;> simp [hc]

theorem osensa_led_level_witness :
    LedCurrentLevel.Range1000To2000 ≠ LedCurrentLevel.Unknown ∧
    (LedCurrentLevel.Range1000To2000 = LedCurrentLevel.Under500 ↔
      u16_from_be_bytes 0xF3 0x86 &&& 0x0003 = 0) ∧
    (LedCurrentLevel.Range1000To2000 = LedCurrentLevel.Range500To1000 ↔
      u16_from_be_bytes 0xF3 0x86 &&& 0x0003 = 1) ∧
    (LedCurrentLevel.Range1000To2000 = LedCurrentLevel.Range1000To2000 ↔
      u16_from_be_bytes 0xF3 0x86 &&& 0x0003 = 2) ∧
    (LedCurrentLevel.Range1000To2000 = LedCurrentLevel.Over2000 ↔
      u16_from_be_bytes 0xF3 0x86 &&& 0x0003 = 3) :=
  osensa_led_level Unit 0xF3 0x86 (-25) LedCurrentLevel.Range1000To2000 (by
    rw [osensa_ok Unit 0xF3 0x86 (by decide) (by decide) (by decide),
      (by decide : u16_from_be_bytes 0xF3 0x86 &&& 0x0003 = 2),
      convert_words_value 0xF3 0x86 (-400) (-25) (by decide) (by norm_num)])

/-- C10: the plain decoder is pure and total (it is a Lean function, and two
applications to the same word are equal), and it ignores the three low-order
bits of the word: clearing bits 2..0 of the low byte leaves the decode
unchanged. -/
theorem convert_words_pure_ignores_low_bits (b0 b1 : Nat) :
    convert_words b0 b1 = convert_words b0 b1 ∧
    convert_words b0 b1 = convert_words b0 (b1 &&& 0xF8) := by
  refine ⟨rfl, ?_⟩
  have hb : b1 &&& 248 = b1 % 256 / 8 * 8 := by
    rw [and_248_mod]
    exact and_248_eq (b1 % 256) (by omega)
  have e1 : u16_from_be_bytes b0 (b1 &&& 248) = b0 % 256 * 256 + b1 % 256 / 8 * 8 := by
    unfold u16_from_be_bytes
    rw [hb, Nat.mod_eq_of_lt (show b1 % 256 / 8 * 8 < 256 by omega)]
  have e0 : u16_from_be_bytes b0 b1 = b0 % 256 * 256 + b1 % 256 := rfl
  have h2 : decode_u16 (u16_from_be_bytes b0 b1) =
      decode_u16 (u16_from_be_bytes b0 (b1 &&& 248)) := by
    rw [decode_u16_char _ (u16_from_be_bytes_lt b0 b1),
      decode_u16_char _ (u16_from_be_bytes_lt b0 (b1 &&& 248)), e1, e0]
    by_cases h : b0 % 256 * 256 + b1 % 256 < 32768
    · rw [if_pos h, if_pos (by omega)]
      omega
    · rw [if_neg h, if_neg (by omega)]
      omega
  unfold convert_words
  rw [h2]

end TiTmp12x
